import Mathlib

/- Verification of the allocation-accounting core of the Advance-in-CPP
repository: the `AllocationMetrics` counters and allocation hooks of
src/examples/allocation-tracking.cpp, the `Timer` of
src/examples/timer-utility.cpp, and the unique-ownership handles of
src/examples/unique-pointer.cpp and src/Unique_pointer_example.cpp. -/

namespace AdvCpp

/-- Modulus of the `uint32_t` counters of `AllocationMetrics`. -/
def U32 : ℕ := 4294967296

/-- `uint32_t` addition: `a += b` wraps modulo `2^32`. -/
def u32add (a b : ℕ) : ℕ := (a + b) % U32

/-- `uint32_t` subtraction `a - b`, wrapping modulo `2^32`. -/
def u32sub (a b : ℕ) : ℕ := (a % U32 + (U32 - b % U32)) % U32

/-- `struct AllocationMetrics` (allocation-tracking.cpp lines 6-12): two
`uint32_t` counters, both zero-initialised. -/
structure AllocationMetrics where
  totalAllocated : ℕ
  totalFreed : ℕ
deriving DecidableEq

/-- The zero-initialised static instance `s_AllocationMetrics`
(allocation-tracking.cpp line 14). -/
def initMetrics : AllocationMetrics := ⟨0, 0⟩

/-- `AllocationMetrics::CurrentUsage` (allocation-tracking.cpp line 11):
`TotalAllocated - TotalFreed` in `uint32_t` arithmetic. -/
def CurrentUsage (m : AllocationMetrics) : ℕ :=
  u32sub m.totalAllocated m.totalFreed

/-- `operator new` (allocation-tracking.cpp lines 16-20): adds `size` to
`TotalAllocated` first, then calls `malloc(size)` and returns its result
unchecked.  The underlying allocator's outcome is the oracle `mallocOk`;
`none` stands for the null pointer `malloc` returns on failure. -/
def operatorNew (m : AllocationMetrics) (size : ℕ) (mallocOk : Bool) :
    AllocationMetrics × Option Unit :=
  (⟨u32add m.totalAllocated size, m.totalFreed⟩,
   if mallocOk then some () else none)

/-- `operator delete` (allocation-tracking.cpp lines 22-26): adds the
caller-supplied `size` to `TotalFreed` unconditionally, then frees the
block.  There is no validation of `size` and no error path. -/
def operatorDelete (m : AllocationMetrics) (size : ℕ) : AllocationMetrics :=
  ⟨m.totalAllocated, u32add m.totalFreed size⟩

/-- A hook-level event: one `operator new` call (with a succeeding
`malloc`) or one `operator delete` call with the supplied size. -/
inductive HookOp where
  | alloc (size : ℕ)
  | dealloc (size : ℕ)
deriving DecidableEq

/-- Effect of one hook event on the metrics. -/
def stepHook (m : AllocationMetrics) : HookOp → AllocationMetrics
  | .alloc n => (operatorNew m n true).1
  | .dealloc n => operatorDelete m n

/-- The metrics state after a sequence of hook events, starting from the
zero-initialised `s_AllocationMetrics`. -/
def runHook (ops : List HookOp) : AllocationMetrics :=
  ops.foldl stepHook initMetrics

/-- Mathematical (unwrapped) sum of all allocated sizes in a trace. -/
def allocSum : List HookOp → ℕ
  | [] => 0
  | .alloc n :: t => n + allocSum t
  | .dealloc _ :: t => allocSum t

/-- Mathematical (unwrapped) sum of all deallocated sizes in a trace. -/
def freedSum : List HookOp → ℕ
  | [] => 0
  | .alloc _ :: t => freedSum t
  | .dealloc n :: t => n + freedSum t

/-- `balancedFrom u ops`: starting with `u` live bytes, every
deallocation in `ops` releases bytes that are actually live at that
point (no deallocation ever exceeds what was allocated before it). -/
def balancedFrom : ℕ → List HookOp → Bool
  | _, [] => true
  | u, .alloc n :: t => balancedFrom (u + n) t
  | u, .dealloc n :: t => decide (n ≤ u) && balancedFrom (u - n) t

/-- A worker thread of the lost-update experiment: either between
increments (`ready`, with the sizes still to add) or in the middle of
the non-atomic `TotalAllocated += size` of `operator new`, having loaded
the shared counter into a register (`loaded`). -/
inductive ThreadCode where
  | ready (rest : List ℕ)
  | loaded (v : ℕ) (size : ℕ) (rest : List ℕ)
deriving DecidableEq

/-- Shared `TotalAllocated` counter plus the per-thread states. -/
structure RaceState where
  counter : ℕ
  threads : List ThreadCode
deriving DecidableEq

/-- Scheduling thread `i` for one machine step.  The plain (non-atomic)
`uint32_t` increment `TotalAllocated += size` of allocation-tracking.cpp
line 18 is two separate accesses of the shared counter: a load into a
register, then a store of `register + size` (wrapped modulo `2^32`). -/
def raceStep (s : RaceState) (i : ℕ) : RaceState :=
  match s.threads.get? i with
  | some (.ready (sz :: rest)) =>
      { s with threads := s.threads.set i (.loaded s.counter sz rest) }
  | some (.loaded v sz rest) =>
      { counter := u32add v sz, threads := s.threads.set i (.ready rest) }
  | _ => s

/-- Run a schedule, given as the list of thread indices to step. -/
def raceRun (s : RaceState) (sched : List ℕ) : RaceState :=
  sched.foldl raceStep s

/-- Every thread has executed all of its increments. -/
def raceDone (s : RaceState) : Bool :=
  s.threads.all fun t => t == ThreadCode.ready []

/-- `std::unique_ptr` move construction (`ptr2 = std::move(ptr)`,
unique-pointer.cpp line 55 and Unique_pointer_example.cpp line 33): the
destination takes the source's pointer and the source is left null.
A handle is `some payload` when owning and `none` when empty.  Returns
(new state of the source, destination). -/
def moveHandle (src : Option ℕ) : Option ℕ × Option ℕ := (none, src)

/-- Moving a handle through a chain of `k` transfers.  Returns the final
states of the `k` moved-from handles (in order) and the final handle. -/
def moveChain : ℕ → Option ℕ → List (Option ℕ) × Option ℕ
  | 0, h => ([], h)
  | k + 1, h =>
      let m := moveHandle h
      let r := moveChain k m.2
      (m.1 :: r.1, r.2)

/-- The `unique_ptr` destructor's contribution to the release count at
scope exit: the object is destroyed and `operator delete` invoked iff
the handle is non-null. -/
def releaseCount (h : Option ℕ) : ℕ := if h.isSome then 1 else 0

/-- Total number of releases when every handle of a chain (all
intermediate handles and the final one) goes out of scope. -/
def totalReleases (mids : List (Option ℕ)) (final : Option ℕ) : ℕ :=
  (mids.map releaseCount).sum + releaseCount final

/-- A `unique_ptr` move transfer in a state that also carries the global
metrics: the move constructor only exchanges the pointer and performs no
call to `operator new` or `operator delete`, so the metrics come back
unchanged.  Returns (metrics, new state of the source, destination). -/
def moveTransfer (m : AllocationMetrics) (src : Option ℕ) :
    AllocationMetrics × Option ℕ × Option ℕ :=
  (m, none, src)

/-- `struct Timer` (timer-utility.cpp lines 7-25): the constructor
records only the start time.  Clock readings are exact rationals, in
seconds. -/
structure Timer where
  start : ℚ

/-- `Timer`'s constructor: `start = chrono::steady_clock::now()`
(timer-utility.cpp lines 12-15). -/
def timerBegin (now : ℚ) : Timer := ⟨now⟩

/-- Conversion of a duration in seconds to milliseconds:
`duration.count() * 1000.0f` (timer-utility.cpp line 22). -/
def msOf (d : ℚ) : ℚ := d * 1000

/-- One line of console output: ordinary body output, or the timer's
report of a millisecond value. -/
inductive OutLine where
  | text (s : String)
  | timerReport (ms : ℚ)
deriving DecidableEq

/-- Rendering of an output line; a timer report renders as
`"Timer took " << ms << " ms"` (timer-utility.cpp line 23). -/
def renderLine : OutLine → String
  | .text s => s
  | .timerReport ms => "Timer took " ++ toString ms ++ " ms"

/-- `Timer::~Timer` (timer-utility.cpp lines 17-24): reads the clock,
computes `duration = end - start`, and prints the duration in
milliseconds.  It reads nothing else — in particular no allocation
counter. -/
def timerFinalize (t : Timer) (now : ℚ) : OutLine :=
  .timerReport (msOf (now - t.start))

/-- The rendered report string of a timer finalised at time `now`. -/
def timerOutput (t : Timer) (now : ℚ) : String :=
  renderLine (timerFinalize t now)

/-- A `Timer`-wrapped region abstracted by its observables: the lines it
prints, the time it takes, and whether it exits by throwing. -/
structure RegionBody where
  out : List OutLine
  elapsed : ℚ
  throws : Bool

/-- Running `{ Timer timer; body }` (as in `function()` of
timer-utility.cpp lines 27-34): the body's output happens, then — on
normal return and during error propagation alike — the `Timer`'s
destructor runs at scope exit and prints its single report line.
Returns the full output and whether the region threw. -/
def runTimedRegion (t0 : ℚ) (b : RegionBody) : List OutLine × Bool :=
  (b.out ++ [timerFinalize (timerBegin t0) (t0 + b.elapsed)], b.throws)

/-- Number of timer-report lines in an output. -/
def countReports (l : List OutLine) : ℕ :=
  (l.filter fun o => match o with | .timerReport _ => true | _ => false).length

/-- The report of a `Timer`-wrapped region during which the global
metrics moved from `m0` to `m1`: the destructor (timer-utility.cpp lines
17-24) reads only the clock, so the metrics are not consulted. -/
def snapshotRegionReport (t0 t1 : ℚ) (_m0 _m1 : AllocationMetrics) : String :=
  timerOutput (timerBegin t0) t1

/-- Unfolded form of one allocation step. -/
theorem stepHook_alloc (m : AllocationMetrics) (n : ℕ) :
    stepHook m (.alloc n) = ⟨(m.totalAllocated + n) % U32, m.totalFreed⟩ := rfl

/-- Unfolded form of one deallocation step. -/
theorem stepHook_dealloc (m : AllocationMetrics) (n : ℕ) :
    stepHook m (.dealloc n) = ⟨m.totalAllocated, (m.totalFreed + n) % U32⟩ := rfl

/-- Folding the hook over a trace adds the unwrapped sums, modulo `2^32`,
provided the starting counters are in `uint32_t` range. -/
theorem foldl_stepHook_spec (ops : List HookOp) (m : AllocationMetrics)
    (hA : m.totalAllocated < U32) (hF : m.totalFreed < U32) :
    ops.foldl stepHook m =
      ⟨(m.totalAllocated + allocSum ops) % U32,
       (m.totalFreed + freedSum ops) % U32⟩ := by
  induction ops generalizing m with
  | nil =>
    simp only [List.foldl_nil, allocSum, freedSum, Nat.add_zero]
    cases m
    simp_all [Nat.mod_eq_of_lt]
  | cons op t ih =>
    cases op with
    | alloc n =>
      rw [List.foldl_cons, stepHook_alloc]
      have h1 : (m.totalAllocated + n) % U32 < U32 :=
        Nat.mod_lt _ (by norm_num [U32])
      rw [ih ⟨(m.totalAllocated + n) % U32, m.totalFreed⟩ h1 hF]
      simp only [allocSum]
      congr 1
      rw [Nat.mod_add_mod, Nat.add_assoc]
    | dealloc n =>
      rw [List.foldl_cons, stepHook_dealloc]
      have h1 : (m.totalFreed + n) % U32 < U32 :=
        Nat.mod_lt _ (by norm_num [U32])
      rw [ih ⟨m.totalAllocated, (m.totalFreed + n) % U32⟩ hA h1]
      simp only [freedSum]
      congr 1
      rw [Nat.mod_add_mod, Nat.add_assoc]

/-- A balanced trace never frees more (in unwrapped sums) than the live
bytes it started with plus what it allocates. -/
theorem freedSum_le_of_balanced (ops : List HookOp) :
    ∀ u, balancedFrom u ops = true → freedSum ops ≤ u + allocSum ops := by
  induction ops with
  | nil => intro u _; simp [freedSum]
  | cons op t ih =>
    intro u h
    cases op with
    | alloc n =>
      have := ih (u + n) h
      simp only [freedSum, allocSum]
      omega
    | dealloc n =>
      simp only [balancedFrom, Bool.and_eq_true, decide_eq_true_eq] at h
      have := ih (u - n) h.2
      simp only [freedSum, allocSum]
      omega

/-- `uint32_t` subtraction agrees with true subtraction when the result
does not underflow and the operands are in range. -/
theorem u32sub_of_le (a b : ℕ) (hb : b ≤ a) (ha : a < U32) :
    u32sub a b = a - b := by
  simp only [u32sub, U32] at *
  omega

/-- A move chain started on an owning handle yields `k` empty
intermediate handles and a final handle owning the original object. -/
theorem moveChain_some (k x : ℕ) :
    moveChain k (some x) = (List.replicate k none, some x) := by
  induction k with
  | zero => rfl
  | succ n ih => simp [moveChain, moveHandle, ih, List.replicate_succ]

/-- Allocated sums add over concatenation of traces. -/
theorem allocSum_append (l1 l2 : List HookOp) :
    allocSum (l1 ++ l2) = allocSum l1 + allocSum l2 := by
  induction l1 with
  | nil => simp [allocSum]
  | cons op t ih => cases op <;> simp [allocSum, ih, Nat.add_assoc]

/-- Freed sums add over concatenation of traces. -/
theorem freedSum_append (l1 l2 : List HookOp) :
    freedSum (l1 ++ l2) = freedSum l1 + freedSum l2 := by
  induction l1 with
  | nil => simp [freedSum]
  | cons op t ih => cases op <;> simp [freedSum, ih, Nat.add_assoc]

/-- `k` allocations of size `s` allocate `k * s` bytes. -/
theorem allocSum_replicate_alloc (k s : ℕ) :
    allocSum (List.replicate k (HookOp.alloc s)) = k * s := by
  induction k with
  | zero => simp [allocSum]
  | succ n ih =>
    simp only [List.replicate_succ, allocSum, ih]
    ring

/-- Pure allocation traces free nothing. -/
theorem freedSum_replicate_alloc (k s : ℕ) :
    freedSum (List.replicate k (HookOp.alloc s)) = 0 := by
  induction k with
  | zero => simp [freedSum]
  | succ n ih => simp [List.replicate_succ, freedSum, ih]

/-- Pure deallocation traces allocate nothing. -/
theorem allocSum_replicate_dealloc (k s : ℕ) :
    allocSum (List.replicate k (HookOp.dealloc s)) = 0 := by
  induction k with
  | zero => simp [allocSum]
  | succ n ih => simp [List.replicate_succ, allocSum, ih]

/-- `k` deallocations of size `s` free `k * s` bytes. -/
theorem freedSum_replicate_dealloc (k s : ℕ) :
    freedSum (List.replicate k (HookOp.dealloc s)) = k * s := by
  induction k with
  | zero => simp [freedSum]
  | succ n ih =>
    simp only [List.replicate_succ, freedSum, ih]
    ring

/-- C1 counterexample: simulate an underlying `malloc` failure on a
24-byte request from the initial state.  `operator new` has already
added 24 to `TotalAllocated` before calling `malloc`, so the failed
allocation is counted and the caller only receives the null pointer. -/
theorem c1_counterexample :
    (operatorNew initMetrics 24 false).2 = none ∧
    (operatorNew initMetrics 24 false).1.totalAllocated = 24 ∧
    (operatorNew initMetrics 24 false).1.totalAllocated ≠
      initMetrics.totalAllocated := by
  refine ⟨rfl, by decide, by decide⟩

/-- C1 (amended): `operator new` increments `totalAllocated` by `size`
(mod `2^32`) unconditionally — before and regardless of the outcome of
the underlying allocation — leaves `totalFreed` untouched, and surfaces
an underlying-allocator failure to the caller only as the returned null
pointer. -/
theorem c1_theorem (m : AllocationMetrics) (size : ℕ) (mallocOk : Bool) :
    (operatorNew m size mallocOk).1.totalAllocated =
      (m.totalAllocated + size) % U32 ∧
    (operatorNew m size mallocOk).1.totalFreed = m.totalFreed ∧
    ((operatorNew m size mallocOk).2 = none ↔ mallocOk = false) := by
  refine ⟨rfl, rfl, ?_⟩
  cases mallocOk <;> simp [operatorNew]

/-- C2 counterexample: the trace consisting of one `operator delete` of
size 1 (a deallocation the hook accepts without any check) reaches a
state with `totalFreed = 1 > 0 = totalAllocated`, where `CurrentUsage`
wraps to `2^32 - 1` instead of equalling the integer difference `-1`. -/
theorem c2_counterexample :
    (runHook [HookOp.dealloc 1]).totalAllocated = 0 ∧
    (runHook [HookOp.dealloc 1]).totalFreed = 1 ∧
    ¬ (runHook [HookOp.dealloc 1]).totalFreed ≤
        (runHook [HookOp.dealloc 1]).totalAllocated ∧
    CurrentUsage (runHook [HookOp.dealloc 1]) = U32 - 1 ∧
    (CurrentUsage (runHook [HookOp.dealloc 1]) : ℤ) ≠
      ((runHook [HookOp.dealloc 1]).totalAllocated : ℤ) -
        ((runHook [HookOp.dealloc 1]).totalFreed : ℤ) := by
  refine ⟨by decide, by decide, by decide, by decide, by decide⟩

/-- C2 (amended): along every trace in which each deallocation releases
only bytes that are live at that point and the total allocated stays
below `2^32`, the counters equal the exact sums, `totalFreed ≤
totalAllocated`, and `CurrentUsage` equals the true (non-negative)
difference `TotalAllocated - TotalFreed`.  Unrestricted traces can
violate this (see the counterexample). -/
theorem c2_theorem (ops : List HookOp) (hbal : balancedFrom 0 ops = true)
    (hlt : allocSum ops < U32) :
    (runHook ops).totalAllocated = allocSum ops ∧
    (runHook ops).totalFreed = freedSum ops ∧
    (runHook ops).totalFreed ≤ (runHook ops).totalAllocated ∧
    (CurrentUsage (runHook ops) : ℤ) =
      ((runHook ops).totalAllocated : ℤ) - ((runHook ops).totalFreed : ℤ) ∧
    0 ≤ (CurrentUsage (runHook ops) : ℤ) := by
  have hfs : freedSum ops ≤ allocSum ops := by
    simpa using freedSum_le_of_balanced ops 0 hbal
  have hrun : runHook ops = ⟨allocSum ops, freedSum ops⟩ := by
    have h0 : initMetrics.totalAllocated < U32 := by norm_num [initMetrics, U32]
    have h0' : initMetrics.totalFreed < U32 := by norm_num [initMetrics, U32]
    rw [runHook, foldl_stepHook_spec ops initMetrics h0 h0']
    congr 1
    · show (0 + allocSum ops) % U32 = allocSum ops
      rw [Nat.zero_add, Nat.mod_eq_of_lt hlt]
    · show (0 + freedSum ops) % U32 = freedSum ops
      rw [Nat.zero_add, Nat.mod_eq_of_lt (lt_of_le_of_lt hfs hlt)]
  rw [hrun]
  have hsub : u32sub (allocSum ops) (freedSum ops) =
      allocSum ops - freedSum ops := u32sub_of_le _ _ hfs hlt
  refine ⟨rfl, rfl, hfs, ?_, by positivity⟩
  show ((u32sub (allocSum ops) (freedSum ops) : ℕ) : ℤ) =
    ((allocSum ops : ℕ) : ℤ) - ((freedSum ops : ℕ) : ℤ)
  rw [hsub, Nat.cast_sub hfs]

/-- C2 witness: a balanced concrete trace (allocate 24 and 12 bytes,
free 12 and 24) satisfies the hypotheses and the invariant. -/
theorem c2_witness :
    balancedFrom 0 [HookOp.alloc 24, HookOp.alloc 12, HookOp.dealloc 12,
      HookOp.dealloc 24] = true ∧
    allocSum [HookOp.alloc 24, HookOp.alloc 12, HookOp.dealloc 12,
      HookOp.dealloc 24] < U32 ∧
    ((runHook [HookOp.alloc 24, HookOp.alloc 12, HookOp.dealloc 12,
        HookOp.dealloc 24]).totalAllocated =
      allocSum [HookOp.alloc 24, HookOp.alloc 12, HookOp.dealloc 12,
        HookOp.dealloc 24] ∧
    (runHook [HookOp.alloc 24, HookOp.alloc 12, HookOp.dealloc 12,
        HookOp.dealloc 24]).totalFreed =
      freedSum [HookOp.alloc 24, HookOp.alloc 12, HookOp.dealloc 12,
        HookOp.dealloc 24] ∧
    (runHook [HookOp.alloc 24, HookOp.alloc 12, HookOp.dealloc 12,
        HookOp.dealloc 24]).totalFreed ≤
      (runHook [HookOp.alloc 24, HookOp.alloc 12, HookOp.dealloc 12,
        HookOp.dealloc 24]).totalAllocated ∧
    (CurrentUsage (runHook [HookOp.alloc 24, HookOp.alloc 12,
        HookOp.dealloc 12, HookOp.dealloc 24]) : ℤ) =
      ((runHook [HookOp.alloc 24, HookOp.alloc 12, HookOp.dealloc 12,
        HookOp.dealloc 24]).totalAllocated : ℤ) -
        ((runHook [HookOp.alloc 24, HookOp.alloc 12, HookOp.dealloc 12,
          HookOp.dealloc 24]).totalFreed : ℤ) ∧
    0 ≤ (CurrentUsage (runHook [HookOp.alloc 24, HookOp.alloc 12,
        HookOp.dealloc 12, HookOp.dealloc 24]) : ℤ)) :=
  ⟨by decide, by decide, c2_theorem _ (by decide) (by decide)⟩

/-- C3 counterexample: two threads each perform one hooked allocation of
size 1 (N = 2, M = 1, S = 1).  Under the schedule load, load, store,
store both threads read 0 from the shared counter and both store 1: the
run completes every thread, yet the counter has increased by 1, not by
N*M*S = 2.  A concurrent update is lost because the increment on
allocation-tracking.cpp line 18 is a plain non-atomic `uint32_t`
addition, not an atomic one. -/
theorem c3_counterexample :
    raceDone (raceRun ⟨0, [ThreadCode.ready [1], ThreadCode.ready [1]]⟩
      [0, 1, 0, 1]) = true ∧
    (raceRun ⟨0, [ThreadCode.ready [1], ThreadCode.ready [1]]⟩
      [0, 1, 0, 1]).counter = 1 ∧
    (1 : ℕ) ≠ 2 * 1 * 1 := by
  refine ⟨by decide, by decide, by decide⟩

/-- C3 (amended): the counter updates are plain non-atomic additions, so
interleaved executions can lose updates (see the counterexample); in a
sequential (single-threaded, or uninterleaved) execution of N*M
allocations of size S followed by N*M deallocations of size S, however,
`totalAllocated` and `totalFreed` each increase by exactly N*M*S modulo
`2^32`. -/
theorem c3_theorem (st : AllocationMetrics) (n m s : ℕ)
    (hA : st.totalAllocated < U32) (hF : st.totalFreed < U32) :
    ((List.replicate (n * m) (HookOp.alloc s) ++
        List.replicate (n * m) (HookOp.dealloc s)).foldl stepHook
          st).totalAllocated = (st.totalAllocated + n * m * s) % U32 ∧
    ((List.replicate (n * m) (HookOp.alloc s) ++
        List.replicate (n * m) (HookOp.dealloc s)).foldl stepHook
          st).totalFreed = (st.totalFreed + n * m * s) % U32 := by
  rw [foldl_stepHook_spec _ st hA hF]
  constructor
  · show (st.totalAllocated + allocSum _) % U32 = _
    rw [allocSum_append, allocSum_replicate_alloc, allocSum_replicate_dealloc,
      Nat.add_zero]
  · show (st.totalFreed + freedSum _) % U32 = _
    rw [freedSum_append, freedSum_replicate_alloc, freedSum_replicate_dealloc,
      Nat.zero_add]

/-- C3 witness: from the initial metrics, 6 sequential allocations of
size 4 followed by 6 sequential deallocations of size 4 (N = 2, M = 3,
S = 4) raise both totals by exactly 24. -/
theorem c3_witness :
    initMetrics.totalAllocated < U32 ∧ initMetrics.totalFreed < U32 ∧
    (((List.replicate (2 * 3) (HookOp.alloc 4) ++
        List.replicate (2 * 3) (HookOp.dealloc 4)).foldl stepHook
          initMetrics).totalAllocated =
        (initMetrics.totalAllocated + 2 * 3 * 4) % U32 ∧
      ((List.replicate (2 * 3) (HookOp.alloc 4) ++
        List.replicate (2 * 3) (HookOp.dealloc 4)).foldl stepHook
          initMetrics).totalFreed =
        (initMetrics.totalFreed + 2 * 3 * 4) % U32) :=
  ⟨by decide, by decide, c3_theorem initMetrics 2 3 4 (by decide) (by decide)⟩

/-- C4: a handle constructed owning an object and moved through a chain
of `k` transfers releases the object exactly once in total when all
`k + 1` handles leave scope; every moved-from intermediate handle is
empty and the final handle owns the original object. -/
theorem c4_theorem (k x : ℕ) :
    totalReleases (moveChain k (some x)).1 (moveChain k (some x)).2 = 1 ∧
    ((moveChain k (some x)).1.all Option.isNone) = true ∧
    (moveChain k (some x)).2 = some x := by
  rw [moveChain_some]
  refine ⟨?_, ?_, rfl⟩
  · simp [totalReleases, releaseCount, List.map_replicate, List.sum_replicate]
  · simp [List.all_eq_true, List.mem_replicate]

/-- C5 counterexample: two `Timer`-wrapped regions over the same time
window, one with a true `TotalAllocated` delta of 24 bytes and one with
a delta of 0, produce the *same* report — the Timer records no
allocation counters at construction and reports no allocation deltas,
so the reported values cannot equal the direct before/after differences
in both runs. -/
theorem c5_counterexample :
    snapshotRegionReport 0 1 initMetrics initMetrics =
      snapshotRegionReport 0 1 initMetrics ⟨24, 0⟩ ∧
    (AllocationMetrics.mk 24 0).totalAllocated -
      initMetrics.totalAllocated = 24 ∧
    initMetrics.totalAllocated - initMetrics.totalAllocated = 0 ∧
    (24 : ℕ) ≠ 0 :=
  ⟨rfl, rfl, rfl, by decide⟩

/-- C5 (amended): the `Timer` records only the begin time at
construction; on release its report depends only on the clock — it is
identical for any allocation-metrics values before and after the region
— and consists of the elapsed time rendered in milliseconds. -/
theorem c5_theorem (t0 t1 : ℚ) (m0 m1 m2 m3 : AllocationMetrics) :
    snapshotRegionReport t0 t1 m0 m1 = snapshotRegionReport t0 t1 m2 m3 ∧
    snapshotRegionReport t0 t1 m0 m1 =
      renderLine (OutLine.timerReport (msOf (t1 - t0))) :=
  ⟨rfl, rfl⟩

/-- C7: moving an owning handle leaves the source empty and the
destination owning the same object, and hands back the global metrics
unchanged: the transfer performs no allocation and no deallocation. -/
theorem c7_theorem (m : AllocationMetrics) (x : ℕ) :
    moveTransfer m (some x) = (m, none, some x) ∧
    (moveTransfer m (some x)).1.totalAllocated = m.totalAllocated ∧
    (moveTransfer m (some x)).1.totalFreed = m.totalFreed ∧
    (moveTransfer m (some x)).2.1 = none ∧
    (moveTransfer m (some x)).2.2 = some x :=
  ⟨rfl, rfl, rfl, rfl, rfl⟩

/-- C8: whether the body returns normally or exits by error propagation,
the region's output is the body's output followed by exactly one timer
report, whose value is the elapsed duration `(t0 + elapsed) - t0`
converted to milliseconds and rendered as a `"Timer took <value> ms"`
line; the error outcome itself is passed through. -/
theorem c8_theorem (t0 : ℚ) (b : RegionBody) :
    countReports (runTimedRegion t0 b).1 = countReports b.out + 1 ∧
    (runTimedRegion t0 b).1 =
      b.out ++ [OutLine.timerReport (msOf (t0 + b.elapsed - t0))] ∧
    msOf (t0 + b.elapsed - t0) = b.elapsed * 1000 ∧
    renderLine (OutLine.timerReport (msOf (t0 + b.elapsed - t0))) =
      "Timer took " ++ toString (b.elapsed * 1000) ++ " ms" ∧
    (runTimedRegion t0 b).2 = b.throws := by
  have h3 : msOf (t0 + b.elapsed - t0) = b.elapsed * 1000 := by
    rw [msOf]
    ring
  refine ⟨?_, rfl, h3, ?_, rfl⟩
  · simp [countReports, runTimedRegion, timerFinalize, List.filter_append]
  · rw [renderLine, h3]

/-- C9 counterexample: allocate a 12-byte block, then deallocate it
passing size 16.  The mismatched size is silently accepted and added to
`totalFreed` (which becomes 16): `operator delete` has no size check,
no error path, and raises no invariant violation. -/
theorem c9_counterexample :
    (operatorDelete (operatorNew initMetrics 12 true).1 16).totalFreed = 16 ∧
    (operatorDelete (operatorNew initMetrics 12 true).1 16).totalFreed ≠
      (operatorNew initMetrics 12 true).1.totalFreed ∧
    (16 : ℕ) ≠ 12 := by
  refine ⟨by decide, by decide, by decide⟩

/-- C9 (amended): `operator delete` unconditionally adds whatever size
the caller supplies to `totalFreed` modulo `2^32` — matching the
original allocation or not — and leaves `totalAllocated` untouched;
there is no mismatch detection and no error signal. -/
theorem c9_theorem (m : AllocationMetrics) (size : ℕ) :
    (operatorDelete m size).totalFreed = (m.totalFreed + size) % U32 ∧
    (operatorDelete m size).totalAllocated = m.totalAllocated :=
  ⟨rfl, rfl⟩

/-- C10: the counters are `uint32_t`: every update and `CurrentUsage`
wrap modulo `2^32`; `CurrentUsage` is always a non-negative value below
`2^32`; freeing more than was allocated wraps the subtraction to a
large positive value (usage `2^32 - 1` after freeing one never-allocated
byte) instead of signalling a violation; and `totalAllocated` silently
wraps past `2^32` (e.g. `2^32 - 8` plus 24 gives 16). -/
theorem c10_theorem :
    (∀ (m : AllocationMetrics) (size : ℕ) (ok : Bool),
      (operatorNew m size ok).1.totalAllocated =
        (m.totalAllocated + size) % U32) ∧
    (∀ (m : AllocationMetrics) (size : ℕ),
      (operatorDelete m size).totalFreed = (m.totalFreed + size) % U32) ∧
    (∀ m : AllocationMetrics, CurrentUsage m < U32) ∧
    CurrentUsage ⟨0, 1⟩ = U32 - 1 ∧
    (CurrentUsage ⟨0, 1⟩ : ℤ) = 2 ^ 32 - 1 ∧
    (operatorNew ⟨U32 - 8, 0⟩ 24 true).1.totalAllocated = 16 := by
  refine ⟨fun m size ok => rfl, fun m size => rfl, ?_, by decide, ?_, by decide⟩
  · intro m
    exact Nat.mod_lt _ (by norm_num [U32])
  · norm_num [CurrentUsage, u32sub, U32]

end AdvCpp
